import Mathlib

/-!
Verification development for the EnviroDrip irrigation controller
(custom_components/envirodrip).  The Python source is shallowly embedded:

* JSON day records (`history[date]`) become `DayRecord` with `Option ℚ`
  fields, since any of the keys `et`, `rainfall`, `water_used` may be
  absent and the code reads them with `.get(key, 0)`.
* The history dict keyed by ISO date strings becomes an association list
  `List (ℤ × DayRecord)`; calendar days are integers (days since an
  epoch), which is faithful because lexicographic comparison of
  zero-padded ISO date strings agrees with chronological order.
* Zone dicts become the structure `Zone`; fields the code reads with
  `zone.get(key, default)` are `Option`-valued.
* The coordinator's mutable effects (zone mutation, `switch.turn_on` /
  `switch.turn_off` service calls, `async_create_task` of the deferred
  turn-off coroutine) become explicit state passing on `CoordState`.
* Rational arithmetic (`ℚ`) models Python float arithmetic exactly on the
  operations these functions perform (+, -, *, /, comparisons, `int()`
  truncation); real-valued transcendental arithmetic in the ET estimator
  is modelled over `ℝ` with explicit domain checks for the operations
  that raise in Python (`math.sqrt`, `math.acos`, division by zero).
-/

/-- Record stored in the history JSON for one calendar day.  Every field
may be missing from the stored dict, hence `Option`. -/
structure DayRecord where
  et : Option ℚ
  rainfall : Option ℚ
  water_used : Option ℚ
deriving DecidableEq, Repr

/-- History dict of `coordinator.py`: ISO-date-keyed day records, dates
modelled as integers. -/
abbrev History := List (ℤ × DayRecord)

/-- Dictionary lookup `history[date]` / `date in history`. -/
def hlookup (history : History) (d : ℤ) : Option DayRecord :=
  (history.find? (fun kv => kv.1 == d)).map Prod.snd

/-- Crop coefficient table from `_calculate_irrigation_need`
(coordinator.py lines 122-128), literal values 0.8, 1.0, 0.6, 0.7, 0.5. -/
def crop_coefficients : List (String × ℚ) :=
  [("lawn", 8/10), ("garden", 1), ("drip", 6/10), ("flowers", 7/10), ("trees", 5/10)]

/-- Coefficient lookup `crop_coefficients.get(zone.get("zone_type", "lawn"), 0.8)`. -/
def kcFor (zone_type : String) : ℚ :=
  (((crop_coefficients.find? (fun kv => kv.1 == zone_type))).map Prod.snd).getD (8/10)

/-- Zone dict of the coordinator.  Fields read via `.get(key, default)`
in the source are `Option`-valued here; `schedule` is the parsed
`"HH:MM"` pair and `days` the weekday-tag list. -/
structure Zone where
  entity_id : String
  zone_type : Option String
  flow_rate : Option ℚ
  irrigation_needed : Option ℚ
  enabled : Option Bool
  schedule : Option (ℕ × ℕ)
  days : Option (List String)
  status : String
  last_run : Option ℤ
  total_water_used : ℚ
  daily_water_used : ℚ
deriving DecidableEq, Repr

/-- Embedding of `EnviroDripCoordinator._calculate_irrigation_need`
(coordinator.py lines 103-131): a single pass over `range(7)` with
three running totals for dates `today - i` present in the history, then
`max(0, deficit * kc)`. -/
def calculate_irrigation_need (zone : Zone) (history : History) (today : ℤ) : ℚ :=
  let totals : ℚ × ℚ × ℚ :=
    (List.range 7).foldl
      (fun acc (i : ℕ) =>
        match hlookup history (today - (i : ℤ)) with
        | some r =>
            (acc.1 + r.et.getD 0, acc.2.1 + r.rainfall.getD 0, acc.2.2 + r.water_used.getD 0)
        | none => acc)
      (0, 0, 0)
  let deficit := totals.1 - totals.2.1 - totals.2.2
  let kc := kcFor (zone.zone_type.getD "lawn")
  max 0 (deficit * kc)

/-- Sum of one field of the day records over the trailing 7-day window
ending at `today`, a day missing from the history contributing 0.  Used
only to state the specification form of the need calculation. -/
def windowSum (f : DayRecord → ℚ) (history : History) (today : ℤ) : ℚ :=
  ((List.range 7).map (fun (i : ℕ) =>
    match hlookup history (today - (i : ℤ)) with
    | some r => f r
    | none => 0)).sum

/-- Specification form of the irrigation need, written as the spec words
it: `max(0, (total_et - total_rainfall - total_water_applied) * kc)`. -/
def irrigationNeedSpec (zone : Zone) (history : History) (today : ℤ) : ℚ :=
  max 0 ((windowSum (fun r => r.et.getD 0) history today
          - windowSum (fun r => r.rainfall.getD 0) history today
          - windowSum (fun r => r.water_used.getD 0) history today)
         * kcFor (zone.zone_type.getD "lawn"))

/-- Embedding of `EnviroDripCoordinator._save_history` pruning
(coordinator.py lines 215-223): keep exactly the entries whose date key
compares `>=` to the cutoff `today - 30`. -/
def save_history (history : History) (today : ℤ) : History :=
  history.filter (fun kv => today - 30 ≤ kv.1)

/-- Embedding of the history update inside the deferred `turn_off`
closure of `run_zone` (coordinator.py lines 196-198): only when today's
record already exists is its `water_used` field incremented; nothing is
created otherwise. -/
def record_water (history : History) (today : ℤ) (amount : ℚ) : History :=
  if (hlookup history today).isSome then
    history.map (fun kv =>
      if kv.1 == today then
        (kv.1, { kv.2 with water_used := some (kv.2.water_used.getD 0 + amount) })
      else kv)
  else history

theorem need_foldl_totals (l : List ℕ) (history : History) (today : ℤ) (a b c : ℚ) :
    l.foldl
      (fun (acc : ℚ × ℚ × ℚ) (i : ℕ) =>
        match hlookup history (today - (i : ℤ)) with
        | some r =>
            (acc.1 + r.et.getD 0, acc.2.1 + r.rainfall.getD 0, acc.2.2 + r.water_used.getD 0)
        | none => acc)
      (a, b, c)
    = (a + ((l.map (fun (i : ℕ) => match hlookup history (today - (i : ℤ)) with
              | some r => r.et.getD 0 | none => 0)).sum),
       b + ((l.map (fun (i : ℕ) => match hlookup history (today - (i : ℤ)) with
              | some r => r.rainfall.getD 0 | none => 0)).sum),
       c + ((l.map (fun (i : ℕ) => match hlookup history (today - (i : ℤ)) with
              | some r => r.water_used.getD 0 | none => 0)).sum)) := by
  induction l generalizing a b c with
  | nil => simp
  | cons x xs ih =>
      cases hx : hlookup history (today - (x : ℤ)) with
      | none =>
          simp [hx, ih]
      | some r =>
          simp [hx, ih, Prod.mk.injEq]
          refine ⟨by ring, by ring, by ring⟩

/-- C4: the irrigation need computed by the coordinator's loop equals
the spec formula `max(0, (Σet - Σrain - Σapplied) * kc)` over the
trailing 7-day window with missing days contributing 0, and it is never
negative. -/
theorem c4_need_matches_spec (zone : Zone) (history : History) (today : ℤ) :
    calculate_irrigation_need zone history today = irrigationNeedSpec zone history today
    ∧ 0 ≤ calculate_irrigation_need zone history today := by
  constructor
  · unfold calculate_irrigation_need irrigationNeedSpec windowSum
    rw [need_foldl_totals]
    simp only [zero_add]
  · unfold calculate_irrigation_need
    exact le_max_left 0 _

theorem hlookup_map_update (history : History) (today : ℤ) (f : DayRecord → DayRecord) :
    hlookup (history.map (fun kv => if kv.1 == today then (kv.1, f kv.2) else kv)) today
      = (hlookup history today).map f := by
  induction history with
  | nil => rfl
  | cons kv rest ih =>
      by_cases hk : kv.1 == today
      · simp [hlookup, List.find?, hk]
      · simp only [List.map_cons, hlookup, List.find?, hk] at ih ⊢
        simp only [if_neg (by simpa using hk), hk, Bool.false_eq_true, if_false]
        simpa [hlookup] using ih

theorem record_water_lookup_some (history : History) (today : ℤ) (a : ℚ) (r : DayRecord)
    (h : hlookup history today = some r) :
    hlookup (record_water history today a) today
      = some { r with water_used := some (r.water_used.getD 0 + a) } := by
  unfold record_water
  rw [h]
  simp only [Option.isSome_some, if_true]
  rw [hlookup_map_update history today
      (fun rec => { rec with water_used := some (rec.water_used.getD 0 + a) }), h]
  rfl

theorem record_water_lookup_none (history : History) (today : ℤ) (a : ℚ)
    (h : hlookup history today = none) :
    record_water history today a = history := by
  unfold record_water
  rw [h]
  rfl

/-- C6 counterexample: on a history with no record for the given date,
the water update of the deferred `turn_off` closure records nothing —
no record is created and the lookup still yields `none`, contradicting
"creating the record if it is absent". -/
theorem c6_counterexample :
    record_water ([] : History) 100 5 = ([] : History)
    ∧ hlookup (record_water ([] : History) 100 5) 100 = none := by
  constructor <;> rfl

/-- C6 amended: the update increments (accumulates onto) `water_used`
when the date's record already exists — two updates on the same date sum
both amounts — but when the record is absent the history is left
unchanged and the water is not recorded. -/
theorem c6_amended (h1 h2 : History) (t : ℤ) (a b : ℚ) (r : DayRecord)
    (hsome : hlookup h1 t = some r) (hnone : hlookup h2 t = none) :
    hlookup (record_water h1 t a) t
      = some { r with water_used := some (r.water_used.getD 0 + a) }
    ∧ hlookup (record_water (record_water h1 t a) t b) t
      = some { r with water_used := some (r.water_used.getD 0 + a + b) }
    ∧ record_water h2 t a = h2 := by
  have h1' := record_water_lookup_some h1 t a r hsome
  refine ⟨h1', ?_, record_water_lookup_none h2 t a hnone⟩
  have h2' := record_water_lookup_some (record_water h1 t a) t b _ h1'
  simpa using h2'

/-- C6 witness: concrete instance of the amended statement. -/
theorem c6_amended_witness :
    hlookup (record_water [((0 : ℤ), (⟨none, none, none⟩ : DayRecord))] 0 2) 0
      = some ⟨none, none, some 2⟩
    ∧ hlookup (record_water (record_water [((0 : ℤ), (⟨none, none, none⟩ : DayRecord))] 0 2) 0 3) 0
      = some ⟨none, none, some 5⟩
    ∧ record_water ([] : History) 0 2 = ([] : History) := by
  have := c6_amended [((0 : ℤ), (⟨none, none, none⟩ : DayRecord))] ([] : History) 0 2 3
    ⟨none, none, none⟩ (by rfl) (by rfl)
  norm_num at this
  exact this

/-- C5 counterexample: saving a history holding a record dated exactly
30 days before today and one dated 5 days in the future keeps both, so
after the save the table does not hold only 30 consecutive days ending
at today (such a window is `[today - 29, today]`, and both surviving
dates lie outside it). -/
theorem c5_counterexample :
    save_history
        [((70 : ℤ), (⟨some 1, some 0, some 0⟩ : DayRecord)),
         ((105 : ℤ), (⟨some 1, some 0, some 0⟩ : DayRecord))] 100
      = [((70 : ℤ), (⟨some 1, some 0, some 0⟩ : DayRecord)),
         ((105 : ℤ), (⟨some 1, some 0, some 0⟩ : DayRecord))]
    ∧ (70 : ℤ) < 100 - 29
    ∧ (100 : ℤ) < 105 := by
  refine ⟨by rfl, by decide, by decide⟩

/-- C5 amended: every save prunes, keeping exactly the records whose
date is at least `today - 30` (so nothing strictly older than 30 days
survives) and preserving key uniqueness; the retained window therefore
spans the 31 dates from `today - 30` through `today` and is unbounded
above, future-dated records being kept as well. -/
theorem c5_amended (history : History) (today : ℤ)
    (hkeys : (history.map Prod.fst).Nodup) :
    (∀ kv : ℤ × DayRecord,
        kv ∈ save_history history today ↔ (kv ∈ history ∧ today - 30 ≤ kv.1))
    ∧ ((save_history history today).map Prod.fst).Nodup := by
  constructor
  · intro kv
    simp [save_history, List.mem_filter]
  · exact hkeys.sublist ((List.filter_sublist _).map _)

/-- C5 witness: concrete instance of the amended statement. -/
theorem c5_amended_witness :
    (∀ kv : ℤ × DayRecord,
        kv ∈ save_history
          [((100 : ℤ), (⟨some 1, none, none⟩ : DayRecord)),
           ((50 : ℤ), (⟨some 2, none, none⟩ : DayRecord))] 100
        ↔ (kv ∈ [((100 : ℤ), (⟨some 1, none, none⟩ : DayRecord)),
                 ((50 : ℤ), (⟨some 2, none, none⟩ : DayRecord))] ∧ (100 : ℤ) - 30 ≤ kv.1))
    ∧ ((save_history
          [((100 : ℤ), (⟨some 1, none, none⟩ : DayRecord)),
           ((50 : ℤ), (⟨some 2, none, none⟩ : DayRecord))] 100).map Prod.fst).Nodup :=
  c5_amended _ 100 (by decide)

/-- Deferred turn-off coroutine created by `run_zone` via
`hass.async_create_task(turn_off())`.  The closure captures the zone's
entity id (through the captured zone object) and the run duration in
minutes. -/
structure PendingOff where
  entity_id : String
  duration : ℤ
deriving DecidableEq, Repr

/-- Service call issued to the external actuator
(`switch.turn_on` / `switch.turn_off`). -/
inductive SvcCall where
  | turnOn : String → SvcCall
  | turnOff : String → SvcCall
deriving DecidableEq, Repr

/-- Observable controller state: the coordinator's zone list, the
outstanding deferred turn-off tasks, and the log of actuator service
calls issued so far. -/
structure CoordState where
  zones : List Zone
  pending : List PendingOff
  actions : List SvcCall
deriving DecidableEq, Repr

/-- Mutation of the zone dict found by
`next(z for z in self.zones if z["entity_id"] == zone_id)`: in Python
the returned dict is updated in place, which in the list model is an
update of the first entry with the matching id. -/
def updateZone (zones : List Zone) (zone_id : String) (f : Zone → Zone) : List Zone :=
  match zones with
  | [] => []
  | z :: rest =>
      if z.entity_id == zone_id then f z :: rest
      else z :: updateZone rest zone_id f

/-- Python `int()` applied to a rational: truncation toward zero. -/
def pyInt (q : ℚ) : ℤ :=
  if q < 0 then -(⌊-q⌋) else ⌊q⌋

/-- Duration computation of `run_zone` when no duration is supplied
(coordinator.py line 171): `max(5, min(60, int(need / flow_rate * 60)))`. -/
def computeDuration (need flow : ℚ) : ℤ :=
  max 5 (min 60 (pyInt (need / flow * 60)))

/-- Embedding of `EnviroDripCoordinator.run_zone` (coordinator.py lines
161-204).  An unknown id returns the state unchanged; otherwise the
zone's status and `last_run` are set, a `turn_on` service call is
issued, and a deferred turn-off task for the computed duration is
created.  There is no guard on an already-running zone. -/
def run_zone (s : CoordState) (zone_id : String) (duration : Option ℤ) (now : ℤ) : CoordState :=
  match s.zones.find? (fun z => z.entity_id == zone_id) with
  | none => s
  | some zone =>
      let dur : ℤ :=
        match duration with
        | some d => d
        | none => computeDuration (zone.irrigation_needed.getD 0) (zone.flow_rate.getD 10)
      { zones := updateZone s.zones zone_id
          (fun z => { z with status := "running", last_run := some now }),
        pending := s.pending ++ [⟨zone.entity_id, dur⟩],
        actions := s.actions ++ [SvcCall.turnOn zone.entity_id] }

/-- Value the `run_zone` coroutine returns to its caller.  Every path of
the Python body returns `None` (a bare `return` in the not-found branch,
falling off the end otherwise), so the caller receives no report of any
kind. -/
def run_zone_report (_s : CoordState) (_zone_id : String) (_duration : Option ℤ)
    (_now : ℤ) : Option String :=
  none

/-- Embedding of `EnviroDripZoneSwitch.async_turn_off` (switch.py lines
51-57): issue the `switch.turn_off` service call, set the zone's status
to idle.  No pending deferred task is touched — the switch holds no
handle to the task created by `run_zone`. -/
def switch_turn_off (s : CoordState) (zone_id : String) : CoordState :=
  { zones := updateZone s.zones zone_id (fun z => { z with status := "idle" }),
    pending := s.pending,
    actions := s.actions ++ [SvcCall.turnOff zone_id] }

/-- Firing of one deferred turn-off task (the body of the `turn_off`
closure in coordinator.py lines 182-201 after the sleep): issue the
`switch.turn_off` service call, credit `duration * flow_rate` to the
zone's counters, set the status to idle, and fold the water into today's
history record (when present) before a pruning save.  The completed task
is removed from the outstanding set. -/
def fire_pending (s : CoordState) (t : PendingOff) (history : History) (today : ℤ) :
    CoordState × History :=
  match s.zones.find? (fun z => z.entity_id == t.entity_id) with
  | none => (s, history)
  | some zone =>
      let water : ℚ := (t.duration : ℚ) * zone.flow_rate.getD 10
      ({ zones := updateZone s.zones t.entity_id
           (fun z => { z with
               total_water_used := z.total_water_used + water,
               daily_water_used := z.daily_water_used + water,
               status := "idle" }),
         pending := s.pending.erase t,
         actions := s.actions ++ [SvcCall.turnOff t.entity_id] },
       save_history (record_water history today water) today)

theorem find?_updateZone (zones : List Zone) (zid : String) (f : Zone → Zone)
    (hid : ∀ z, (f z).entity_id = z.entity_id) :
    (updateZone zones zid f).find? (fun z => z.entity_id == zid)
      = (zones.find? (fun z => z.entity_id == zid)).map f := by
  induction zones with
  | nil => rfl
  | cons z rest ih =>
      cases hz : (z.entity_id == zid) with
      | true =>
          simp only [updateZone, hz, if_true, List.find?_cons, hid, Option.map_some]
          simp [hz]
      | false =>
          simp only [updateZone, hz, Bool.false_eq_true, if_false, List.find?_cons, hid]
          simp [hz, ih]

theorem map_updateZone {α : Type} (zones : List Zone) (zid : String) (f : Zone → Zone)
    (g : Zone → α) (hg : ∀ z, g (f z) = g z) :
    (updateZone zones zid f).map g = zones.map g := by
  induction zones with
  | nil => rfl
  | cons z rest ih =>
      cases hz : (z.entity_id == zid) with
      | true => simp [updateZone, hz, hg]
      | false => simp [updateZone, hz, ih]

/-- C1 counterexample: starting a zone that is already `running` (one
deferred turn-off outstanding, one turn-on already issued) is not a
no-op: `last_run` is overwritten, a second `turn_on` service call is
issued, and a second deferred turn-off task is stacked, so the zone now
holds two outstanding deferred turn-off tasks. -/
theorem c1_counterexample :
    run_zone
        ⟨[⟨"z1", none, some 10, some 20, none, none, none, "running", some 0, 0, 0⟩],
         [⟨"z1", 60⟩], [SvcCall.turnOn "z1"]⟩
        "z1" none 5
      = ⟨[⟨"z1", none, some 10, some 20, none, none, none, "running", some 5, 0, 0⟩],
         [⟨"z1", 60⟩, ⟨"z1", 60⟩],
         [SvcCall.turnOn "z1", SvcCall.turnOn "z1"]⟩ := by
  norm_num [run_zone, List.find?, computeDuration, pyInt, updateZone]

/-- C1 amended: `run_zone` has no guard on an already-running zone — the
call proceeds exactly like a fresh start: it overwrites `last_run` with
the current time, issues another `turn_on` actuator call, and appends
another deferred turn-off task, so re-entrant starts stack timers. -/
theorem c1_amended (s : CoordState) (zid : String) (dur : Option ℤ) (now : ℤ) (zone : Zone)
    (hfind : s.zones.find? (fun z => z.entity_id == zid) = some zone)
    (_hrun : zone.status = "running") :
    (run_zone s zid dur now).pending.length = s.pending.length + 1
    ∧ (run_zone s zid dur now).actions = s.actions ++ [SvcCall.turnOn zone.entity_id]
    ∧ (run_zone s zid dur now).zones.find? (fun z => z.entity_id == zid)
        = some { zone with status := "running", last_run := some now } := by
  unfold run_zone
  rw [hfind]
  refine ⟨by simp, rfl, ?_⟩
  rw [find?_updateZone s.zones zid
      (fun z => { z with status := "running", last_run := some now }) (fun z => rfl), hfind]
  rfl

/-- C1 witness: concrete instance of the amended statement. -/
theorem c1_amended_witness :
    (run_zone ⟨[⟨"z1", none, some 10, some 20, none, none, none, "running", some 0, 0, 0⟩],
        [⟨"z1", 60⟩], []⟩ "z1" none 5).pending.length
      = ([⟨"z1", (60 : ℤ)⟩] : List PendingOff).length + 1
    ∧ (run_zone ⟨[⟨"z1", none, some 10, some 20, none, none, none, "running", some 0, 0, 0⟩],
        [⟨"z1", 60⟩], []⟩ "z1" none 5).actions = [] ++ [SvcCall.turnOn "z1"]
    ∧ (run_zone ⟨[⟨"z1", none, some 10, some 20, none, none, none, "running", some 0, 0, 0⟩],
        [⟨"z1", 60⟩], []⟩ "z1" none 5).zones.find? (fun z => z.entity_id == "z1")
        = some ⟨"z1", none, some 10, some 20, none, none, none, "running", some 5, 0, 0⟩ :=
  c1_amended
    ⟨[⟨"z1", none, some 10, some 20, none, none, none, "running", some 0, 0, 0⟩],
     [⟨"z1", 60⟩], []⟩
    "z1" none 5
    ⟨"z1", none, some 10, some 20, none, none, none, "running", some 0, 0, 0⟩
    rfl rfl

/-- C2 counterexample: stopping a running zone via the switch does not
cancel the outstanding deferred turn-off task, and when that task later
fires it credits the full `duration * flow_rate` water usage to the
zone's counters and to the day's ledger record — so `total_water_used`,
`daily_water_used` and the ledger's water for the day do not remain
unchanged at all later times. -/
theorem c2_counterexample :
    (switch_turn_off
        ⟨[⟨"z1", none, some 10, none, none, none, none, "running", some 0, 0, 0⟩],
         [⟨"z1", 30⟩], []⟩ "z1").pending = [⟨"z1", 30⟩]
    ∧ fire_pending
        (switch_turn_off
          ⟨[⟨"z1", none, some 10, none, none, none, none, "running", some 0, 0, 0⟩],
           [⟨"z1", 30⟩], []⟩ "z1")
        ⟨"z1", 30⟩ [((100 : ℤ), (⟨some 1, some 0, some 0⟩ : DayRecord))] 100
      = (⟨[⟨"z1", none, some 10, none, none, none, none, "idle", some 0, 300, 300⟩],
          [], [SvcCall.turnOff "z1", SvcCall.turnOff "z1"]⟩,
         [((100 : ℤ), (⟨some 1, some 0, some 300⟩ : DayRecord))]) := by
  constructor
  · rfl
  · norm_num [fire_pending, switch_turn_off, updateZone, List.find?, record_water,
      hlookup, save_history, List.erase_cons]

/-- C2 amended: an explicit stop issues the `turn_off` service call
immediately, transitions the zone to idle, and at stop time changes no
water counters, no `last_run`, and no history; but it does not cancel
the pending deferred completion — the outstanding task list is exactly
as before — and when that completion later fires it credits
`duration * flow_rate` to the zone's counters and to today's ledger
record, so water usage for the stopped run is still recorded. -/
theorem c2_amended (s : CoordState) (zid : String) (t : PendingOff) (history : History)
    (today : ℤ) (zone : Zone)
    (hfind : (switch_turn_off s zid).zones.find? (fun z => z.entity_id == t.entity_id)
        = some zone) :
    (switch_turn_off s zid).pending = s.pending
    ∧ (switch_turn_off s zid).actions = s.actions ++ [SvcCall.turnOff zid]
    ∧ (switch_turn_off s zid).zones.map
        (fun z => (z.entity_id, z.total_water_used, z.daily_water_used, z.last_run))
      = s.zones.map (fun z => (z.entity_id, z.total_water_used, z.daily_water_used, z.last_run))
    ∧ (switch_turn_off s zid).zones.find? (fun z => z.entity_id == zid)
        = (s.zones.find? (fun z => z.entity_id == zid)).map (fun z => { z with status := "idle" })
    ∧ (fire_pending (switch_turn_off s zid) t history today).2
        = save_history (record_water history today ((t.duration : ℚ) * zone.flow_rate.getD 10))
            today
    ∧ (fire_pending (switch_turn_off s zid) t history today).1.zones.find?
        (fun z => z.entity_id == t.entity_id)
      = some { zone with
          total_water_used := zone.total_water_used + (t.duration : ℚ) * zone.flow_rate.getD 10,
          daily_water_used := zone.daily_water_used + (t.duration : ℚ) * zone.flow_rate.getD 10,
          status := "idle" } := by
  refine ⟨rfl, rfl, ?_, ?_, ?_, ?_⟩
  · exact map_updateZone s.zones zid _ _ (fun z => rfl)
  · rw [show (switch_turn_off s zid).zones
        = updateZone s.zones zid (fun z => { z with status := "idle" }) from rfl]
    exact find?_updateZone s.zones zid _ (fun z => rfl)
  · unfold fire_pending
    rw [hfind]
  · unfold fire_pending
    rw [hfind]
    simp only
    rw [find?_updateZone ((switch_turn_off s zid).zones) t.entity_id
        (fun z => { z with
            total_water_used := z.total_water_used + (t.duration : ℚ) * zone.flow_rate.getD 10,
            daily_water_used := z.daily_water_used + (t.duration : ℚ) * zone.flow_rate.getD 10,
            status := "idle" }) (fun z => rfl), hfind]
    rfl

/-- C2 witness: concrete instance of the amended statement. -/
theorem c2_amended_witness :
    (switch_turn_off
        ⟨[⟨"z1", none, some 10, none, none, none, none, "running", some 0, 0, 0⟩],
         [⟨"z1", 30⟩], []⟩ "z1").pending = [⟨"z1", 30⟩]
    ∧ (switch_turn_off
        ⟨[⟨"z1", none, some 10, none, none, none, none, "running", some 0, 0, 0⟩],
         [⟨"z1", 30⟩], []⟩ "z1").actions = [] ++ [SvcCall.turnOff "z1"]
    ∧ (switch_turn_off
        ⟨[⟨"z1", none, some 10, none, none, none, none, "running", some 0, 0, 0⟩],
         [⟨"z1", 30⟩], []⟩ "z1").zones.map
        (fun z => (z.entity_id, z.total_water_used, z.daily_water_used, z.last_run))
      = [⟨"z1", none, some 10, none, none, none, none, "running", some 0, 0, 0⟩].map
          (fun (z : Zone) => (z.entity_id, z.total_water_used, z.daily_water_used, z.last_run))
    ∧ (switch_turn_off
        ⟨[⟨"z1", none, some 10, none, none, none, none, "running", some 0, 0, 0⟩],
         [⟨"z1", 30⟩], []⟩ "z1").zones.find? (fun z => z.entity_id == "z1")
        = ([⟨"z1", none, some 10, none, none, none, none, "running", some 0, 0, 0⟩].find?
            (fun (z : Zone) => z.entity_id == "z1")).map (fun z => { z with status := "idle" })
    ∧ (fire_pending
        (switch_turn_off
          ⟨[⟨"z1", none, some 10, none, none, none, none, "running", some 0, 0, 0⟩],
           [⟨"z1", 30⟩], []⟩ "z1")
        ⟨"z1", 30⟩ [((100 : ℤ), (⟨some 1, some 0, some 0⟩ : DayRecord))] 100).2
        = save_history
            (record_water [((100 : ℤ), (⟨some 1, some 0, some 0⟩ : DayRecord))] 100
              (((30 : ℤ) : ℚ) * 10)) 100
    ∧ (fire_pending
        (switch_turn_off
          ⟨[⟨"z1", none, some 10, none, none, none, none, "running", some 0, 0, 0⟩],
           [⟨"z1", 30⟩], []⟩ "z1")
        ⟨"z1", 30⟩ [((100 : ℤ), (⟨some 1, some 0, some 0⟩ : DayRecord))] 100).1.zones.find?
        (fun z => z.entity_id == "z1")
      = some ⟨"z1", none, some 10, none, none, none, none, "idle", some 0,
          0 + ((30 : ℤ) : ℚ) * 10, 0 + ((30 : ℤ) : ℚ) * 10⟩ :=
  c2_amended
    ⟨[⟨"z1", none, some 10, none, none, none, none, "running", some 0, 0, 0⟩],
     [⟨"z1", 30⟩], []⟩
    "z1" ⟨"z1", 30⟩ [((100 : ℤ), (⟨some 1, some 0, some 0⟩ : DayRecord))] 100
    ⟨"z1", none, some 10, none, none, none, none, "idle", some 0, 0, 0⟩
    rfl

/-- C8 counterexample: for `irrigation_needed = 1` mm and
`flow_rate = 8` L/min the code computes `int(1 / 8 * 60) = int(7.5) = 7`
minutes, while the claimed `clamp(needed / flow_rate * 60, 5, 60)` is
`7.5` — Python's `int()` truncation is applied before clamping, so the
claimed equality fails on non-integer quotients. -/
theorem c8_counterexample :
    computeDuration 1 8 = 7
    ∧ max (5 : ℚ) (min 60 ((1 : ℚ) / 8 * 60)) = 15 / 2
    ∧ ((7 : ℚ) ≠ 15 / 2) := by
  refine ⟨by norm_num [computeDuration, pyInt], by norm_num, by norm_num⟩

/-- C8 amended: a start without an explicit duration schedules a
deferred turn-off of `clamp(trunc(needed / flow_rate * 60), 5, 60)`
minutes — truncation toward zero before clamping — which always lies in
[5, 60]; with needed 20 mm and flow 10 L/min it is 60.  (The hypothesis
`0 < flow_rate` excludes the configuration on which the Python code
raises `ZeroDivisionError` instead of computing a duration.) -/
theorem c8_amended (s : CoordState) (zid : String) (now : ℤ) (zone : Zone)
    (hfind : s.zones.find? (fun z => z.entity_id == zid) = some zone)
    (_hflow : 0 < zone.flow_rate.getD 10) :
    (run_zone s zid none now).pending
      = s.pending ++ [⟨zone.entity_id,
          computeDuration (zone.irrigation_needed.getD 0) (zone.flow_rate.getD 10)⟩]
    ∧ 5 ≤ computeDuration (zone.irrigation_needed.getD 0) (zone.flow_rate.getD 10)
    ∧ computeDuration (zone.irrigation_needed.getD 0) (zone.flow_rate.getD 10) ≤ 60
    ∧ computeDuration (zone.irrigation_needed.getD 0) (zone.flow_rate.getD 10)
        = min 60 (max 5 (pyInt (zone.irrigation_needed.getD 0 / zone.flow_rate.getD 10 * 60))) := by
  refine ⟨?_, le_max_left _ _, max_le (by norm_num) (min_le_left _ _), ?_⟩
  · unfold run_zone
    rw [hfind]
  · unfold computeDuration
    omega

/-- C8 witness: concrete instance of the amended statement at
needed 20 mm and flow 10 L/min; the scheduled duration is
`computeDuration 20 10 = 60` minutes. -/
theorem c8_amended_witness :
    computeDuration 20 10 = 60
    ∧ ((run_zone ⟨[⟨"z1", none, some 10, some 20, none, none, none, "idle", none, 0, 0⟩], [], []⟩
          "z1" none 0).pending
        = [] ++ [⟨"z1", computeDuration 20 10⟩]
    ∧ 5 ≤ computeDuration 20 10
    ∧ computeDuration 20 10 ≤ 60
    ∧ computeDuration 20 10 = min 60 (max 5 (pyInt ((20 : ℚ) / 10 * 60)))) :=
  ⟨by norm_num [computeDuration, pyInt],
   c8_amended ⟨[⟨"z1", none, some 10, some 20, none, none, none, "idle", none, 0, 0⟩], [], []⟩
     "z1" 0 ⟨"z1", none, some 10, some 20, none, none, none, "idle", none, 0, 0⟩
     rfl (by norm_num)⟩

/-- C9 counterexample: starting an unknown zone id leaves the state
unchanged (that part of the claim holds) but is not reported to the
caller as a "not found" outcome: the Python coroutine returns `None` on
the not-found path exactly as on the success path, so the caller
receives an indistinguishable (empty) report in both cases. -/
theorem c9_counterexample :
    run_zone ⟨[⟨"z1", none, some 10, some 20, none, none, none, "idle", none, 0, 0⟩], [], []⟩
        "unknown" none 0
      = ⟨[⟨"z1", none, some 10, some 20, none, none, none, "idle", none, 0, 0⟩], [], []⟩
    ∧ run_zone_report
        ⟨[⟨"z1", none, some 10, some 20, none, none, none, "idle", none, 0, 0⟩], [], []⟩
        "unknown" none 0
      = run_zone_report
          ⟨[⟨"z1", none, some 10, some 20, none, none, none, "idle", none, 0, 0⟩], [], []⟩
          "z1" none 0 := by
  exact ⟨rfl, rfl⟩

/-- C9 amended: a start on an id matching no configured zone causes no
state change at all — zones, pending deferred tasks, and issued actuator
calls are exactly as before — and the call completes silently, returning
the same `None` as a successful call; no "not found" condition is
reported to the caller. -/
theorem c9_amended (s : CoordState) (zid : String) (dur : Option ℤ) (now : ℤ)
    (hmiss : s.zones.find? (fun z => z.entity_id == zid) = none) :
    run_zone s zid dur now = s ∧ run_zone_report s zid dur now = none := by
  unfold run_zone
  rw [hmiss]
  exact ⟨rfl, rfl⟩

/-- C9 witness: concrete instance of the amended statement. -/
theorem c9_amended_witness :
    run_zone ⟨[⟨"z1", none, some 10, some 20, none, none, none, "idle", none, 0, 0⟩], [], []⟩
        "nope" none 7
      = ⟨[⟨"z1", none, some 10, some 20, none, none, none, "idle", none, 0, 0⟩], [], []⟩
    ∧ run_zone_report
        ⟨[⟨"z1", none, some 10, some 20, none, none, none, "idle", none, 0, 0⟩], [], []⟩
        "nope" none 7 = none :=
  c9_amended ⟨[⟨"z1", none, some 10, some 20, none, none, none, "idle", none, 0, 0⟩], [], []⟩
    "nope" none 7 rfl

/-- Weekday tags as produced by `now.strftime("%a").lower()`, in week
order starting from the epoch's weekday (day 0 is a Monday in this
model). -/
def weekTags : List String := ["mon", "tue", "wed", "thu", "fri", "sat", "sun"]

/-- Weekday tag of an integer calendar day. -/
def dayTag (d : ℤ) : String := weekTags.getD (d % 7).toNat "mon"

/-- Point in local time: a calendar day plus minutes since midnight
(fractional minutes carry the seconds/microseconds of a `datetime`). -/
structure Instant where
  day : ℤ
  minuteOfDay : ℚ
deriving DecidableEq, Repr

/-- Scheduled time-of-day in minutes,
`zone.get("schedule", "06:00")` parsed as hour and minute. -/
def schedMinutes (zone : Zone) : ℚ :=
  let hm := zone.schedule.getD (6, 0)
  60 * hm.1 + hm.2

/-- Active weekday tags, `zone.get("days", ["mon", "wed", "fri"])`. -/
def activeDays (zone : Zone) : List String := zone.days.getD ["mon", "wed", "fri"]

/-- Embedding of `EnviroDripCoordinator._calculate_next_run`
(coordinator.py lines 133-159): `None` when disabled; today at the
scheduled time when today's tag is active and `now` is strictly before
it; otherwise the first of the next 1..7 days whose tag is active, at
the scheduled time; `None` when no day matches. -/
def calculate_next_run (zone : Zone) (now : Instant) : Option Instant :=
  if !(zone.enabled.getD true) then none
  else if dayTag now.day ∈ activeDays zone ∧ now.minuteOfDay < schedMinutes zone then
    some ⟨now.day, schedMinutes zone⟩
  else
    (List.range' 1 7).findSome? (fun (i : ℕ) =>
      if dayTag (now.day + (i : ℤ)) ∈ activeDays zone
      then some ⟨now.day + (i : ℤ), schedMinutes zone⟩ else none)

theorem findSome?_guard {α : Type} (l : List ℕ) (p : ℕ → Prop) [DecidablePred p] (g : ℕ → α) :
    (l.findSome? (fun i => if p i then some (g i) else none))
      = (l.find? (fun i => decide (p i))).map g := by
  induction l with
  | nil => rfl
  | cons x xs ih =>
      by_cases h : p x <;> simp [List.findSome?_cons, List.find?_cons, h, ih]

/-- C7: for an enabled zone, the next run is today at the scheduled
time-of-day exactly when today's weekday tag is active and `now` is
strictly before that time; otherwise it is the scheduled time on the
first of the next 1..7 days whose tag is active (absent when none is,
in particular when the active-day set is empty). -/
theorem c7_next_run (zone : Zone) (now : Instant)
    (henabled : zone.enabled.getD true = true) :
    (calculate_next_run zone now = some ⟨now.day, schedMinutes zone⟩
      ↔ (dayTag now.day ∈ activeDays zone ∧ now.minuteOfDay < schedMinutes zone))
    ∧ (¬(dayTag now.day ∈ activeDays zone ∧ now.minuteOfDay < schedMinutes zone) →
        calculate_next_run zone now
          = ((List.range' 1 7).find?
              (fun (i : ℕ) => decide (dayTag (now.day + (i : ℤ)) ∈ activeDays zone))).map
              (fun (i : ℕ) => (⟨now.day + (i : ℤ), schedMinutes zone⟩ : Instant)))
    ∧ (zone.days = some [] → calculate_next_run zone now = none) := by
  unfold calculate_next_run
  rw [henabled]
  simp only [Bool.not_true, Bool.false_eq_true, if_false]
  by_cases hc : dayTag now.day ∈ activeDays zone ∧ now.minuteOfDay < schedMinutes zone
  · refine ⟨by simp [hc], fun hnc => absurd hc hnc, fun hd => ?_⟩
    exfalso
    rcases hc with ⟨hmem, _⟩
    rw [show activeDays zone = [] by simp [activeDays, hd]] at hmem
    exact (List.not_mem_nil _) hmem
  · rw [if_neg hc, findSome?_guard (List.range' 1 7)
      (fun (i : ℕ) => dayTag (now.day + (i : ℤ)) ∈ activeDays zone)
      (fun (i : ℕ) => (⟨now.day + (i : ℤ), schedMinutes zone⟩ : Instant))]
    refine ⟨?_, fun _ => rfl, fun hd => ?_⟩
    · constructor
      · intro heq
        exfalso
        cases hfind : (List.range' 1 7).find?
            (fun (i : ℕ) => decide (dayTag (now.day + (i : ℤ)) ∈ activeDays zone)) with
        | none => rw [hfind] at heq; exact Option.noConfusion heq
        | some i =>
            rw [hfind] at heq
            have hi : 1 ≤ i := by
              have := List.mem_of_find?_eq_some hfind
              have := (List.mem_range'_1.mp this).1
              omega
            simp [Instant.mk.injEq] at heq
            omega
      · intro h; exact absurd h hc
    · have hact : activeDays zone = [] := by simp [activeDays, hd]
      simp [hact]

/-- C7 witness: concrete instance — an enabled zone scheduled 06:00 on
Mondays, evaluated on a Monday at 05:00. -/
theorem c7_next_run_witness :
    (calculate_next_run
        ⟨"z1", none, none, none, some true, some (6, 0), some ["mon"], "idle", none, 0, 0⟩
        ⟨0, 300⟩
      = some ⟨(0 : ℤ),
          schedMinutes ⟨"z1", none, none, none, some true, some (6, 0), some ["mon"], "idle", none, 0, 0⟩⟩
      ↔ (dayTag 0 ∈ activeDays ⟨"z1", none, none, none, some true, some (6, 0), some ["mon"], "idle", none, 0, 0⟩
          ∧ (300 : ℚ) < schedMinutes ⟨"z1", none, none, none, some true, some (6, 0), some ["mon"], "idle", none, 0, 0⟩))
    ∧ (¬(dayTag 0 ∈ activeDays ⟨"z1", none, none, none, some true, some (6, 0), some ["mon"], "idle", none, 0, 0⟩
          ∧ (300 : ℚ) < schedMinutes ⟨"z1", none, none, none, some true, some (6, 0), some ["mon"], "idle", none, 0, 0⟩) →
        calculate_next_run
            ⟨"z1", none, none, none, some true, some (6, 0), some ["mon"], "idle", none, 0, 0⟩
            ⟨0, 300⟩
          = ((List.range' 1 7).find?
              (fun (i : ℕ) => decide (dayTag ((0 : ℤ) + (i : ℤ))
                ∈ activeDays ⟨"z1", none, none, none, some true, some (6, 0), some ["mon"], "idle", none, 0, 0⟩))).map
              (fun (i : ℕ) => (⟨(0 : ℤ) + (i : ℤ),
                schedMinutes ⟨"z1", none, none, none, some true, some (6, 0), some ["mon"], "idle", none, 0, 0⟩⟩ : Instant)))
    ∧ ((⟨"z1", none, none, none, some true, some (6, 0), some ["mon"], "idle", none, 0, 0⟩ : Zone).days
          = some [] →
        calculate_next_run
            ⟨"z1", none, none, none, some true, some (6, 0), some ["mon"], "idle", none, 0, 0⟩
            ⟨0, 300⟩ = none) :=
  c7_next_run
    ⟨"z1", none, none, none, some true, some (6, 0), some ["mon"], "idle", none, 0, 0⟩
    ⟨0, 300⟩ rfl

/-- C10: a zone configuration omitting `enabled`, `schedule`, or `days`
is treated by the next-run computation exactly as an enabled zone
scheduled 06:00 on mon/wed/fri, while an explicitly empty day list
yields no next run. -/
theorem c10_schedule_defaults (z : Zone) (now : Instant) :
    calculate_next_run { z with enabled := none, schedule := none, days := none } now
      = calculate_next_run
          { z with enabled := some true, schedule := some (6, 0),
                   days := some ["mon", "wed", "fri"] } now
    ∧ calculate_next_run { z with days := some [] } now = none := by
  constructor
  · rfl
  · unfold calculate_next_run
    simp [activeDays, List.range', List.findSome?]

/-- Weather summary dict passed to
`WeatherDataProcessor.calculate_et_for_day`; a `none` field models the
key being absent from the dict (the code checks
`all(key in weather_data for key in [...])` before reading). -/
structure WeatherSummary where
  temp_min : Option ℝ
  temp_max : Option ℝ
  humidity : Option ℝ
  wind_speed : Option ℝ

/-- Python `math.sqrt`: raises `ValueError` on a negative argument. -/
noncomputable def checkedSqrt (x : ℝ) : Except Unit ℝ :=
  if x < 0 then Except.error () else Except.ok (Real.sqrt x)

/-- Python `math.acos`: raises `ValueError` outside [-1, 1]. -/
noncomputable def checkedAcos (x : ℝ) : Except Unit ℝ :=
  if x < -1 ∨ 1 < x then Except.error () else Except.ok (Real.arccos x)

/-- Python float division: raises `ZeroDivisionError` on a zero
denominator. -/
noncomputable def checkedDiv (a b : ℝ) : Except Unit ℝ :=
  if b = 0 then Except.error () else Except.ok (a / b)

/-- Body of the `try` block of `calculate_et_for_day` (weather.py lines
124-179), over the reals: the Hargreaves-radiation Penman-Monteith
approximation, with an `error` outcome wherever the Python arithmetic
raises (`acos` out of domain, `sqrt` of a negative difference, division
by zero; real arithmetic does not overflow, so `OverflowError` has no
counterpart).  Divisions whose denominators are nonzero constants (2,
100, 365, 180, π) are kept as plain division. -/
noncomputable def computeET (latitude day_of_year temp_min temp_max humidity wind_speed : ℝ) :
    Except Unit ℝ := do
  let temp_mean := (temp_min + temp_max) / 2
  let lat_rad := latitude * Real.pi / 180
  let solar_dec := 0.409 * Real.sin ((2 * Real.pi / 365) * day_of_year - 1.39)
  let sunset_angle ← checkedAcos (-(Real.tan lat_rad) * Real.tan solar_dec)
  let dr := 1 + 0.033 * Real.cos ((2 * Real.pi / 365) * day_of_year)
  let et_rad := (24 * 60 / Real.pi) * 0.082 * dr *
    (sunset_angle * Real.sin lat_rad * Real.sin solar_dec +
     Real.cos lat_rad * Real.cos solar_dec * Real.sin sunset_angle)
  let sq ← checkedSqrt (temp_max - temp_min)
  let solar_rad := 0.16 * sq * et_rad
  let net_rad := 0.77 * solar_rad - 2.0
  let esmin_arg ← checkedDiv (17.27 * temp_min) (temp_min + 237.3)
  let es_min := 0.6108 * Real.exp esmin_arg
  let esmax_arg ← checkedDiv (17.27 * temp_max) (temp_max + 237.3)
  let es_max := 0.6108 * Real.exp esmax_arg
  let es := (es_min + es_max) / 2
  let ea := es * (humidity / 100)
  let vpd := es - ea
  let delta ← checkedDiv (4098 * es) ((temp_mean + 237.3) ^ 2)
  let gamma := 0.665e-3 * 101.3
  let u2 := wind_speed * 0.748
  let et_rad_term ← checkedDiv (0.408 * delta * net_rad) (delta + gamma * (1 + 0.34 * u2))
  let et_wind_term ← checkedDiv (gamma * 900 * u2 * vpd)
    ((temp_mean + 273) * (delta + gamma * (1 + 0.34 * u2)))
  return et_rad_term + et_wind_term

/-- Embedding of `WeatherDataProcessor.calculate_et_for_day`
(weather.py lines 119-186): 0.0 when a required key is absent, the
clamped Penman-Monteith value on success, and 0.0 when the guarded
arithmetic raises (the `except` handler). -/
noncomputable def calculate_et_for_day (latitude day_of_year : ℝ) (w : WeatherSummary) : ℝ :=
  if w.temp_min.isSome ∧ w.temp_max.isSome ∧ w.humidity.isSome ∧ w.wind_speed.isSome then
    match computeET latitude day_of_year (w.temp_min.getD 0) (w.temp_max.getD 0)
        (w.humidity.getD 0) (w.wind_speed.getD 0) with
    | Except.ok et => max 0 (min 15 et)
    | Except.error _ => 0
  else 0

/-- C3: the ET estimator always returns a value in [0, 15] mm/day;
omitting any of the required fields gives exactly 0.0; and the result is
nonzero only when the guarded arithmetic succeeded and the result is the
clamp of its value — so every arithmetic failure (caught by the
`except` handler) also yields exactly 0.0. -/
theorem c3_et_estimator (latitude day_of_year : ℝ) (w : WeatherSummary) :
    (0 ≤ calculate_et_for_day latitude day_of_year w
      ∧ calculate_et_for_day latitude day_of_year w ≤ 15)
    ∧ calculate_et_for_day latitude day_of_year { w with temp_min := none } = 0
    ∧ calculate_et_for_day latitude day_of_year { w with temp_max := none } = 0
    ∧ calculate_et_for_day latitude day_of_year { w with humidity := none } = 0
    ∧ calculate_et_for_day latitude day_of_year { w with wind_speed := none } = 0
    ∧ (calculate_et_for_day latitude day_of_year w = 0
       ∨ ∃ et, computeET latitude day_of_year (w.temp_min.getD 0) (w.temp_max.getD 0)
              (w.humidity.getD 0) (w.wind_speed.getD 0) = Except.ok et
            ∧ calculate_et_for_day latitude day_of_year w = max 0 (min 15 et)) := by
  refine ⟨?_, by simp [calculate_et_for_day], by simp [calculate_et_for_day],
    by simp [calculate_et_for_day], by simp [calculate_et_for_day], ?_⟩
  · unfold calculate_et_for_day
    by_cases hall : w.temp_min.isSome ∧ w.temp_max.isSome ∧ w.humidity.isSome
        ∧ w.wind_speed.isSome
    · rw [if_pos hall]
      cases hE : computeET latitude day_of_year (w.temp_min.getD 0) (w.temp_max.getD 0)
          (w.humidity.getD 0) (w.wind_speed.getD 0) with
      | error e => norm_num
      | ok et =>
          exact ⟨le_max_left 0 _, max_le (by norm_num) (min_le_left _ _)⟩
    · rw [if_neg hall]
      norm_num
  · unfold calculate_et_for_day
    by_cases hall : w.temp_min.isSome ∧ w.temp_max.isSome ∧ w.humidity.isSome
        ∧ w.wind_speed.isSome
    · rw [if_pos hall]
      cases hE : computeET latitude day_of_year (w.temp_min.getD 0) (w.temp_max.getD 0)
          (w.humidity.getD 0) (w.wind_speed.getD 0) with
      | error e => exact Or.inl rfl
      | ok et => exact Or.inr ⟨et, rfl, rfl⟩
    · rw [if_neg hall]
      exact Or.inl rfl
